import Mathlib

/-!
# Verification of `ts-easy-circuit-breaker`

A shallow embedding of the circuit-breaker state machine from `src/index.ts`
(the `CircuitBreaker` class): phases CLOSED / OPEN / HALF_OPEN, lazy
time-based reconciliation (`checkState`), outcome recording (`onSuccess`,
`onFailure`), the open-threshold evaluation (`isThresholdExceeded`), the
transition helpers (`toOpen`, `toHalfOpen`, `toClose`), the constructor's
state seeding and `exportState`.

Modelling conventions:
* timestamps and durations are `Int` (JS `Date.now()` values);
* counters are `Nat`;
* the failure-rate division `failureCount / totalAttempts` and
  `failureThreshold` are `Rat` (exact rationals in place of JS doubles;
  none of the verified properties hinges on binary rounding);
* JS `Number.MAX_SAFE_INTEGER` is `2 ^ 53 - 1`;
* the JS `x || d` defaulting idiom is modelled by `jsOr*` helpers
  (falling back to `d` exactly when the value is falsy, i.e. `0` for
  numbers and the `CLOSED` variant for the `CircuitState` enum);
* each mutating method of the class becomes a pure function
  `State → ... → State × List CBEvent`, the event list collecting the
  `emit` calls in program order, payload and all;
* `execute` takes the outcome of the wrapped operation as an
  `Except ε α` parameter together with the `Date.now()` values observed
  at its three call sites (reconciliation, the OPEN gate, and the
  outcome-recording step), and returns the final state, the emitted
  events and the call's result.
-/

/-- JS `Number.MAX_SAFE_INTEGER`. -/
def maxSafeInteger : ℕ := 2 ^ 53 - 1

/-- The `CircuitState` enum: `CLOSED`, `OPEN`, `HALF_OPEN`. -/
inductive CircuitState where
  | CLOSED
  | OPEN
  | HALF_OPEN
deriving DecidableEq, Repr

/-- Resolved configuration of the breaker (after the constructor applied
the `||` defaults): the fields assigned in the constructor. -/
structure CircuitBreakerOptions where
  failureThreshold : ℚ
  timeWindow : ℤ
  resetTimeout : ℤ
  minAttempts : ℕ
  minFailures : ℕ
  minEvaluationTime : ℤ
  maxFailureCount : ℕ
deriving DecidableEq, Repr

/-- The raw `CircuitBreakerOptions` record passed to the constructor, with
the optional fields optional. -/
structure RawCircuitBreakerOptions where
  failureThreshold : ℚ
  timeWindow : ℤ
  resetTimeout : ℤ
  minAttempts : Option ℕ
  minFailures : Option ℕ
  minEvaluationTime : Option ℤ
  maxFailureCount : Option ℕ
deriving DecidableEq, Repr

/-- The `CircuitBreakerState` record: the six mutable state fields, also
the snapshot format of `exportState`. -/
structure CircuitBreakerState where
  state : CircuitState
  failureCount : ℕ
  successCount : ℕ
  firstFailureTime : ℤ
  lastFailureTime : ℤ
  nextAttempt : ℤ
deriving DecidableEq, Repr

/-- Events emitted through the `EventEmitter`: each constructor is one
`emit` channel, carrying exactly the payload the source passes (the
short-circuit path of `execute` emits `openCircuit` with no payload, so
that payload is an `Option`). -/
inductive CBEvent where
  | openCircuit (payload : Option ℤ)
  | closeCircuit
  | halfOpen
  | success (successCount : ℕ)
  | failure (failureCount : ℕ)
deriving DecidableEq, Repr

/-- The breaker's own error (`CircuitBreakerOpenError`) versus an error
raised by the wrapped operation, which `execute` re-raises as is. -/
inductive BreakerError (ε : Type) where
  | circuitOpen (message : String)
  | opError (e : ε)
deriving DecidableEq, Repr

/-- JS `x || d` on a number modelled as `Int`. -/
def jsOrInt (x d : ℤ) : ℤ := if x = 0 then d else x

/-- JS `x || d` on a number modelled as `Nat`. -/
def jsOrNat (x d : ℕ) : ℕ := if x = 0 then d else x

/-- JS `x || d` on a `CircuitState` value (`CLOSED` is the enum member `0`,
hence falsy). -/
def jsOrState (x d : CircuitState) : CircuitState :=
  if x = CircuitState.CLOSED then d else x

/-- JS `x? || d` on an optional number modelled as `Nat`. -/
def jsOrOptNat (x : Option ℕ) (d : ℕ) : ℕ :=
  match x with
  | none => d
  | some v => jsOrNat v d

/-- JS `x? || d` on an optional number modelled as `Int`. -/
def jsOrOptInt (x : Option ℤ) (d : ℤ) : ℤ :=
  match x with
  | none => d
  | some v => jsOrInt v d

/-- The constructor's option resolution: `minAttempts || 5`,
`minFailures || 3`, `minEvaluationTime || 0`,
`maxFailureCount || Number.MAX_SAFE_INTEGER`. -/
def resolveOptions (o : RawCircuitBreakerOptions) : CircuitBreakerOptions :=
  { failureThreshold := o.failureThreshold
    timeWindow := o.timeWindow
    resetTimeout := o.resetTimeout
    minAttempts := jsOrOptNat o.minAttempts 5
    minFailures := jsOrOptNat o.minFailures 3
    minEvaluationTime := jsOrOptInt o.minEvaluationTime 0
    maxFailureCount := jsOrOptNat o.maxFailureCount maxSafeInteger }

/-- The constructor's state seeding: each field is
`initialState?.field || falsyDefault`. -/
def seedState (init : Option CircuitBreakerState) : CircuitBreakerState :=
  { state := jsOrState ((init.map CircuitBreakerState.state).getD CircuitState.CLOSED) CircuitState.CLOSED
    failureCount := jsOrNat ((init.map CircuitBreakerState.failureCount).getD 0) 0
    successCount := jsOrNat ((init.map CircuitBreakerState.successCount).getD 0) 0
    firstFailureTime := jsOrInt ((init.map CircuitBreakerState.firstFailureTime).getD 0) 0
    lastFailureTime := jsOrInt ((init.map CircuitBreakerState.lastFailureTime).getD 0) 0
    nextAttempt := jsOrInt ((init.map CircuitBreakerState.nextAttempt).getD 0) 0 }

/-- `new CircuitBreaker(options, initialState?)`: resolved options plus
seeded state. -/
def mkCircuitBreaker (o : RawCircuitBreakerOptions)
    (init : Option CircuitBreakerState) :
    CircuitBreakerOptions × CircuitBreakerState :=
  (resolveOptions o, seedState init)

/-- `resetState()`: CLOSED with every counter and timestamp zero. -/
def resetState : CircuitBreakerState :=
  { state := CircuitState.CLOSED
    failureCount := 0
    successCount := 0
    firstFailureTime := 0
    lastFailureTime := 0
    nextAttempt := 0 }

/-- `exportState()`: the snapshot of the six state fields. -/
def exportState (s : CircuitBreakerState) : CircuitBreakerState :=
  { state := s.state
    failureCount := s.failureCount
    successCount := s.successCount
    firstFailureTime := s.firstFailureTime
    lastFailureTime := s.lastFailureTime
    nextAttempt := s.nextAttempt }

/-- `getState()`: the current phase, no mutation. -/
def getState (s : CircuitBreakerState) : CircuitState := s.state

/-- The failure rate `failureCount / totalAttempts` of
`isThresholdExceeded()`, as an exact rational. Written with `mkRat` so
that it evaluates by kernel reduction; `failureRate_eq_div` below shows
it equals the literal quotient of the source. -/
def failureRate (failureCount totalAttempts : ℕ) : ℚ :=
  mkRat failureCount totalAttempts

/-- `failureRate` is the quotient `failureCount / totalAttempts` the
source computes (with `q / 0 = 0` at the denominator-zero point the
recording paths never reach). -/
theorem failureRate_eq_div (failureCount totalAttempts : ℕ) :
    failureRate failureCount totalAttempts =
      (failureCount : ℚ) / (totalAttempts : ℚ) := by
  simp [failureRate, Rat.mkRat_eq_div]

/-- `isThresholdExceeded()`: all five conditions of the open-threshold
check, with the failure rate as an exact rational. -/
def isThresholdExceeded (opts : CircuitBreakerOptions)
    (s : CircuitBreakerState) (now : ℤ) : Prop :=
  let totalAttempts : ℕ := s.failureCount + s.successCount
  let timeElapsed : ℤ := now - s.firstFailureTime
  s.failureCount ≥ opts.minFailures ∧
  failureRate s.failureCount totalAttempts ≥ opts.failureThreshold ∧
  totalAttempts ≥ opts.minAttempts ∧
  timeElapsed ≥ opts.minEvaluationTime ∧
  now < s.firstFailureTime + opts.timeWindow

instance (opts : CircuitBreakerOptions) (s : CircuitBreakerState) (now : ℤ) :
    Decidable (isThresholdExceeded opts s now) := by
  unfold isThresholdExceeded
  exact inferInstance

/-- `toOpen()`: phase becomes OPEN, `nextAttempt = now + resetTimeout`,
emit `openCircuit` with the `nextAttempt` payload. -/
def toOpen (opts : CircuitBreakerOptions) (s : CircuitBreakerState)
    (now : ℤ) : CircuitBreakerState × List CBEvent :=
  let s' := { s with state := CircuitState.OPEN
                     nextAttempt := now + opts.resetTimeout }
  (s', [CBEvent.openCircuit (some s'.nextAttempt)])

/-- `toHalfOpen()`: phase becomes HALF_OPEN, both counters reset, emit
`halfOpen` (no payload). -/
def toHalfOpen (s : CircuitBreakerState) :
    CircuitBreakerState × List CBEvent :=
  ({ s with state := CircuitState.HALF_OPEN
            failureCount := 0
            successCount := 0 }, [CBEvent.halfOpen])

/-- `toClose()`: full reset, emit `closeCircuit` (no payload). -/
def toClose : CircuitBreakerState × List CBEvent :=
  (resetState, [CBEvent.closeCircuit])

/-- `checkState()`: the lazy reconciliation run at the top of `execute`.
First the OPEN→HALF_OPEN / expired-window branches, then — on the state
those branches produced — the `MAX_SAFE_INTEGER` / `maxFailureCount`
safety valve. -/
def checkState (opts : CircuitBreakerOptions) (s : CircuitBreakerState)
    (now : ℤ) : CircuitBreakerState × List CBEvent :=
  let p :=
    if s.state = CircuitState.OPEN ∧ now ≥ s.nextAttempt then
      toHalfOpen s
    else if s.state = CircuitState.CLOSED ∧ s.firstFailureTime ≠ 0 ∧
        now - s.firstFailureTime > opts.timeWindow then
      (resetState, [])
    else
      (s, [])
  if p.1.successCount ≥ maxSafeInteger ∨
      p.1.failureCount ≥ opts.maxFailureCount then
    (resetState, p.2)
  else
    p

/-- `onSuccess()`: increment `successCount`; from HALF_OPEN a single
success closes the circuit; emit `success` with the current
`successCount` as payload. -/
def onSuccess (s : CircuitBreakerState) :
    CircuitBreakerState × List CBEvent :=
  let s₁ := { s with successCount := s.successCount + 1 }
  if s₁.state = CircuitState.HALF_OPEN then
    (toClose.1, toClose.2 ++ [CBEvent.success toClose.1.successCount])
  else
    (s₁, [CBEvent.success s₁.successCount])

/-- `onFailure()`: increment `failureCount`, stamp `lastFailureTime`;
in CLOSED start the window when none is open and open the circuit when
the threshold check passes; in HALF_OPEN a single failure re-opens;
emit `failure` with the current `failureCount` as payload. -/
def onFailure (opts : CircuitBreakerOptions) (s : CircuitBreakerState)
    (now : ℤ) : CircuitBreakerState × List CBEvent :=
  let s₁ := { s with failureCount := s.failureCount + 1
                     lastFailureTime := now }
  if s₁.state = CircuitState.CLOSED then
    let s₂ := if s₁.firstFailureTime = 0 then
        { s₁ with firstFailureTime := now } else s₁
    if isThresholdExceeded opts s₂ now then
      let o := toOpen opts s₂ now
      (o.1, o.2 ++ [CBEvent.failure o.1.failureCount])
    else
      (s₂, [CBEvent.failure s₂.failureCount])
  else if s₁.state = CircuitState.HALF_OPEN then
    let o := toOpen opts s₁ now
    (o.1, o.2 ++ [CBEvent.failure o.1.failureCount])
  else
    (s₁, [CBEvent.failure s₁.failureCount])

/-- `execute(fn, ...args)`: reconcile, short-circuit with
`CircuitBreakerOpenError` when OPEN and inside the cooldown, otherwise
record the wrapped operation's outcome and pass its result or error
through. `tCheck`, `tGate`, `tOutcome` are the `Date.now()` values
observed by `checkState`, the OPEN gate, and `onFailure`. -/
def execute {ε α : Type} (opts : CircuitBreakerOptions)
    (s : CircuitBreakerState) (tCheck tGate tOutcome : ℤ)
    (outcome : Except ε α) :
    CircuitBreakerState × List CBEvent × Except (BreakerError ε) α :=
  let c := checkState opts s tCheck
  if c.1.state = CircuitState.OPEN ∧ tGate < c.1.nextAttempt then
    (c.1, c.2 ++ [CBEvent.openCircuit none],
      Except.error (BreakerError.circuitOpen "Circuit is OPEN"))
  else
    match outcome with
    | Except.ok v =>
        let r := onSuccess c.1
        (r.1, c.2 ++ r.2, Except.ok v)
    | Except.error e =>
        let r := onFailure opts c.1 tOutcome
        (r.1, c.2 ++ r.2, Except.error (BreakerError.opError e))

/-- The §4.1 validity constraints on a resolved configuration. -/
def validOptions (opts : CircuitBreakerOptions) : Prop :=
  0 ≤ opts.failureThreshold ∧ opts.failureThreshold ≤ 1 ∧
  0 < opts.timeWindow ∧ 0 < opts.resetTimeout ∧
  1 ≤ opts.minAttempts ∧ 1 ≤ opts.minFailures ∧
  0 ≤ opts.minEvaluationTime ∧ 0 < opts.maxFailureCount

instance (opts : CircuitBreakerOptions) : Decidable (validOptions opts) := by
  unfold validOptions
  exact inferInstance

instance {ε α : Type} [DecidableEq ε] [DecidableEq α] :
    DecidableEq (Except (BreakerError ε) α) := fun a b =>
  match a, b with
  | Except.ok x, Except.ok y =>
      if h : x = y then Decidable.isTrue (by rw [h])
      else Decidable.isFalse (by simp [h])
  | Except.ok _, Except.error _ => Decidable.isFalse (by simp)
  | Except.error _, Except.ok _ => Decidable.isFalse (by simp)
  | Except.error x, Except.error y =>
      if h : x = y then Decidable.isTrue (by rw [h])
      else Decidable.isFalse (by simp [h])

/-- One recorded outcome of the wrapped operation, paired below with the
`Date.now()` timestamp `onFailure` observes. -/
inductive Outcome where
  | success
  | failure
deriving DecidableEq, Repr

/-- Record one outcome: `onSuccess()` for a success, `onFailure()` at the
given time for a failure (the state part; events are settled per call in
the event theorems). -/
def record (opts : CircuitBreakerOptions) (s : CircuitBreakerState)
    (e : Outcome × ℤ) : CircuitBreakerState :=
  match e.1 with
  | Outcome.success => (onSuccess s).1
  | Outcome.failure => (onFailure opts s e.2).1

/-- Record a sequence of timed outcomes in order. -/
def runSeq (opts : CircuitBreakerOptions) (s : CircuitBreakerState)
    (l : List (Outcome × ℤ)) : CircuitBreakerState :=
  l.foldl (record opts) s

/-- Failures in a recording sequence. -/
def countFailures (l : List (Outcome × ℤ)) : ℕ :=
  l.countP (fun e => e.1 = Outcome.failure)

/-- Successes in a recording sequence. -/
def countSuccesses (l : List (Outcome × ℤ)) : ℕ :=
  l.countP (fun e => e.1 = Outcome.success)

/-- `exportState` returns exactly the six fields, i.e. the full state. -/
theorem exportState_eq (s : CircuitBreakerState) : exportState s = s := rfl

/-- Seeding from a snapshot restores it verbatim: each `x || 0` falls back
to the default exactly when the stored value already is that default. -/
theorem seedState_some (s : CircuitBreakerState) :
    seedState (some s) = s := by
  unfold seedState jsOrState jsOrNat jsOrInt
  cases s with
  | mk st fc sc fft lft na =>
      cases st <;> simp_all

/-- C8: constructing a breaker from `b1.exportState()` seeds all six
state fields verbatim, so the new breaker's immediate `exportState()`
equals `b1.exportState()`. -/
theorem export_import_round_trip (raw : RawCircuitBreakerOptions)
    (b : CircuitBreakerState)
    (hv : validOptions (resolveOptions raw)) :
    exportState (mkCircuitBreaker raw (some (exportState b))).2
      = exportState b := by
  simp [mkCircuitBreaker, exportState_eq, seedState_some]

theorem export_import_round_trip_witness :
    validOptions (resolveOptions
      { failureThreshold := mkRat 1 2, timeWindow := 10000,
        resetTimeout := 30000, minAttempts := none, minFailures := none,
        minEvaluationTime := none, maxFailureCount := none }) ∧
    exportState (mkCircuitBreaker
      { failureThreshold := mkRat 1 2, timeWindow := 10000,
        resetTimeout := 30000, minAttempts := none, minFailures := none,
        minEvaluationTime := none, maxFailureCount := none }
      (some (exportState
        { state := CircuitState.OPEN, failureCount := 4, successCount := 1,
          firstFailureTime := 100, lastFailureTime := 104,
          nextAttempt := 30104 }))).2
      = exportState
        { state := CircuitState.OPEN, failureCount := 4, successCount := 1,
          firstFailureTime := 100, lastFailureTime := 104,
          nextAttempt := 30104 } :=
  ⟨by decide, export_import_round_trip _ _ (by decide)⟩

/-- C2: when, after reconciliation, the phase is OPEN and the gate time is
before `nextAttempt`, `execute` returns the breaker's own
`CircuitBreakerOpenError`, leaves the state exactly as reconciliation
left it (no outcome recorded), emits only the payload-less `openCircuit`
notification, and its result does not depend on the wrapped operation's
outcome at all (the operation is never invoked). -/
theorem open_short_circuit {ε α : Type} (opts : CircuitBreakerOptions)
    (s : CircuitBreakerState) (tCheck tGate tOutcome : ℤ)
    (outcome : Except ε α)
    (hs : (checkState opts s tCheck).1.state = CircuitState.OPEN)
    (ht : tGate < (checkState opts s tCheck).1.nextAttempt) :
    execute opts s tCheck tGate tOutcome outcome =
      ((checkState opts s tCheck).1,
       (checkState opts s tCheck).2 ++ [CBEvent.openCircuit none],
       Except.error (BreakerError.circuitOpen "Circuit is OPEN")) := by
  simp [execute, hs, ht]

theorem open_short_circuit_witness :
    (checkState
        { failureThreshold := mkRat 1 2, timeWindow := 10000,
          resetTimeout := 30000, minAttempts := 5, minFailures := 3,
          minEvaluationTime := 0, maxFailureCount := maxSafeInteger }
        { state := CircuitState.OPEN, failureCount := 3, successCount := 2,
          firstFailureTime := 100, lastFailureTime := 102,
          nextAttempt := 30102 } 200).1.state = CircuitState.OPEN ∧
    (200 : ℤ) < (checkState
        { failureThreshold := mkRat 1 2, timeWindow := 10000,
          resetTimeout := 30000, minAttempts := 5, minFailures := 3,
          minEvaluationTime := 0, maxFailureCount := maxSafeInteger }
        { state := CircuitState.OPEN, failureCount := 3, successCount := 2,
          firstFailureTime := 100, lastFailureTime := 102,
          nextAttempt := 30102 } 200).1.nextAttempt ∧
    execute (ε := Unit) (α := Nat)
        { failureThreshold := mkRat 1 2, timeWindow := 10000,
          resetTimeout := 30000, minAttempts := 5, minFailures := 3,
          minEvaluationTime := 0, maxFailureCount := maxSafeInteger }
        { state := CircuitState.OPEN, failureCount := 3, successCount := 2,
          firstFailureTime := 100, lastFailureTime := 102,
          nextAttempt := 30102 } 200 200 200 (Except.ok 7) =
      ((checkState
          { failureThreshold := mkRat 1 2, timeWindow := 10000,
            resetTimeout := 30000, minAttempts := 5, minFailures := 3,
            minEvaluationTime := 0, maxFailureCount := maxSafeInteger }
          { state := CircuitState.OPEN, failureCount := 3, successCount := 2,
            firstFailureTime := 100, lastFailureTime := 102,
            nextAttempt := 30102 } 200).1,
       (checkState
          { failureThreshold := mkRat 1 2, timeWindow := 10000,
            resetTimeout := 30000, minAttempts := 5, minFailures := 3,
            minEvaluationTime := 0, maxFailureCount := maxSafeInteger }
          { state := CircuitState.OPEN, failureCount := 3, successCount := 2,
            firstFailureTime := 100, lastFailureTime := 102,
            nextAttempt := 30102 } 200).2 ++ [CBEvent.openCircuit none],
       Except.error (BreakerError.circuitOpen "Circuit is OPEN")) :=
  ⟨by decide, by decide, open_short_circuit _ _ _ _ _ _ (by decide) (by decide)⟩

/-- C3: in HALF_OPEN the single trial decides the phase: one success fully
resets to CLOSED (emitting `closeCircuit`), one failure re-opens with
`nextAttempt = now + resetTimeout` (emitting `openCircuit`). -/
theorem half_open_single_trial (opts : CircuitBreakerOptions)
    (s : CircuitBreakerState) (now : ℤ)
    (hs : s.state = CircuitState.HALF_OPEN) :
    (onSuccess s).1 = resetState ∧
    (onSuccess s).2 = [CBEvent.closeCircuit, CBEvent.success 0] ∧
    (onFailure opts s now).1.state = CircuitState.OPEN ∧
    (onFailure opts s now).1.nextAttempt = now + opts.resetTimeout ∧
    (onFailure opts s now).2 =
      [CBEvent.openCircuit (some (now + opts.resetTimeout)),
       CBEvent.failure (s.failureCount + 1)] := by
  refine ⟨?_, ?_, ?_, ?_, ?_⟩ <;>
    simp [onSuccess, onFailure, toClose, toOpen, resetState, hs]

theorem half_open_single_trial_witness :
    ({ state := CircuitState.HALF_OPEN, failureCount := 0, successCount := 0,
       firstFailureTime := 0, lastFailureTime := 0,
       nextAttempt := 30102 } : CircuitBreakerState).state
        = CircuitState.HALF_OPEN ∧
    (onFailure
      { failureThreshold := mkRat 1 2, timeWindow := 10000,
        resetTimeout := 30000, minAttempts := 5, minFailures := 3,
        minEvaluationTime := 0, maxFailureCount := maxSafeInteger }
      { state := CircuitState.HALF_OPEN, failureCount := 0, successCount := 0,
        firstFailureTime := 0, lastFailureTime := 0,
        nextAttempt := 30102 } 40000).1.state = CircuitState.OPEN :=
  ⟨by decide,
   (half_open_single_trial
      { failureThreshold := mkRat 1 2, timeWindow := 10000,
        resetTimeout := 30000, minAttempts := 5, minFailures := 3,
        minEvaluationTime := 0, maxFailureCount := maxSafeInteger }
      { state := CircuitState.HALF_OPEN, failureCount := 0, successCount := 0,
        firstFailureTime := 0, lastFailureTime := 0,
        nextAttempt := 30102 } 40000 (by decide)).2.2.1⟩

/-- C1: from CLOSED, recording a failure opens the circuit (with
`nextAttempt = now + resetTimeout`) exactly when, after incrementing
`failureCount` and starting the window when none is open, the five
open-threshold conditions hold; otherwise the phase stays CLOSED. -/
theorem closed_failure_opens_iff (opts : CircuitBreakerOptions)
    (s : CircuitBreakerState) (now : ℤ)
    (hv : validOptions opts) (hs : s.state = CircuitState.CLOSED) :
    ((onFailure opts s now).1.state = CircuitState.OPEN ↔
      (s.failureCount + 1 ≥ opts.minFailures ∧
       ((s.failureCount + 1 : ℕ) : ℚ) /
           ((s.failureCount + 1 + s.successCount : ℕ) : ℚ)
         ≥ opts.failureThreshold ∧
       s.failureCount + 1 + s.successCount ≥ opts.minAttempts ∧
       now - (if s.firstFailureTime = 0 then now else s.firstFailureTime)
         ≥ opts.minEvaluationTime ∧
       now < (if s.firstFailureTime = 0 then now else s.firstFailureTime)
         + opts.timeWindow)) ∧
    ((onFailure opts s now).1.state = CircuitState.OPEN →
      (onFailure opts s now).1.nextAttempt = now + opts.resetTimeout) ∧
    ((onFailure opts s now).1.state ≠ CircuitState.OPEN →
      (onFailure opts s now).1.state = CircuitState.CLOSED) := by
  by_cases h0 : s.firstFailureTime = 0 <;>
    simp only [onFailure, hs, h0, if_true, if_false, reduceIte] <;>
    split_ifs with hT <;>
    simp_all [isThresholdExceeded, toOpen, failureRate_eq_div]

theorem closed_failure_opens_iff_witness :
    validOptions
      { failureThreshold := mkRat 1 2, timeWindow := 10000,
        resetTimeout := 30000, minAttempts := 5, minFailures := 3,
        minEvaluationTime := 0, maxFailureCount := maxSafeInteger } ∧
    ({ state := CircuitState.CLOSED, failureCount := 2, successCount := 2,
       firstFailureTime := 100, lastFailureTime := 103,
       nextAttempt := 0 } : CircuitBreakerState).state
      = CircuitState.CLOSED ∧
    ((onFailure
        { failureThreshold := mkRat 1 2, timeWindow := 10000,
          resetTimeout := 30000, minAttempts := 5, minFailures := 3,
          minEvaluationTime := 0, maxFailureCount := maxSafeInteger }
        { state := CircuitState.CLOSED, failureCount := 2, successCount := 2,
          firstFailureTime := 100, lastFailureTime := 103,
          nextAttempt := 0 } 105).1.state = CircuitState.OPEN ↔
      ((2 : ℕ) + 1 ≥ 3 ∧
       (((2 : ℕ) + 1 : ℕ) : ℚ) / (((2 : ℕ) + 1 + (2 : ℕ) : ℕ) : ℚ)
         ≥ mkRat 1 2 ∧
       (2 : ℕ) + 1 + 2 ≥ 5 ∧
       (105 : ℤ) - (if (100 : ℤ) = 0 then 105 else 100) ≥ 0 ∧
       (105 : ℤ) < (if (100 : ℤ) = 0 then 105 else 100) + 10000)) ∧
    ((onFailure
        { failureThreshold := mkRat 1 2, timeWindow := 10000,
          resetTimeout := 30000, minAttempts := 5, minFailures := 3,
          minEvaluationTime := 0, maxFailureCount := maxSafeInteger }
        { state := CircuitState.CLOSED, failureCount := 2, successCount := 2,
          firstFailureTime := 100, lastFailureTime := 103,
          nextAttempt := 0 } 105).1.state = CircuitState.OPEN →
      (onFailure
        { failureThreshold := mkRat 1 2, timeWindow := 10000,
          resetTimeout := 30000, minAttempts := 5, minFailures := 3,
          minEvaluationTime := 0, maxFailureCount := maxSafeInteger }
        { state := CircuitState.CLOSED, failureCount := 2, successCount := 2,
          firstFailureTime := 100, lastFailureTime := 103,
          nextAttempt := 0 } 105).1.nextAttempt = 105 + 30000) ∧
    ((onFailure
        { failureThreshold := mkRat 1 2, timeWindow := 10000,
          resetTimeout := 30000, minAttempts := 5, minFailures := 3,
          minEvaluationTime := 0, maxFailureCount := maxSafeInteger }
        { state := CircuitState.CLOSED, failureCount := 2, successCount := 2,
          firstFailureTime := 100, lastFailureTime := 103,
          nextAttempt := 0 } 105).1.state ≠ CircuitState.OPEN →
      (onFailure
        { failureThreshold := mkRat 1 2, timeWindow := 10000,
          resetTimeout := 30000, minAttempts := 5, minFailures := 3,
          minEvaluationTime := 0, maxFailureCount := maxSafeInteger }
        { state := CircuitState.CLOSED, failureCount := 2, successCount := 2,
          firstFailureTime := 100, lastFailureTime := 103,
          nextAttempt := 0 } 105).1.state = CircuitState.CLOSED) :=
  ⟨by decide, by decide,
   closed_failure_opens_iff _ _ 105 (by decide) (by decide)⟩

/-- C4: reconciliation at the top of `execute`: an OPEN breaker whose
cooldown elapsed becomes HALF_OPEN with both counters zeroed (emitting
`halfOpen`); a CLOSED breaker whose open window lapsed is fully reset
and stays CLOSED, so a subsequent failure in the same call counts from
one, not from the accumulated count. -/
theorem checkState_reconciliation (opts : CircuitBreakerOptions)
    (s : CircuitBreakerState) (now : ℤ) :
    (s.state = CircuitState.OPEN → now ≥ s.nextAttempt →
      0 < opts.maxFailureCount →
      checkState opts s now =
        ({ s with state := CircuitState.HALF_OPEN, failureCount := 0,
                  successCount := 0 }, [CBEvent.halfOpen])) ∧
    (s.state = CircuitState.CLOSED → s.firstFailureTime ≠ 0 →
      now - s.firstFailureTime > opts.timeWindow →
      checkState opts s now = (resetState, [])) ∧
    (s.state = CircuitState.CLOSED → s.firstFailureTime ≠ 0 →
      now - s.firstFailureTime > opts.timeWindow →
      (execute (ε := Unit) (α := Unit) opts s now now now
        (Except.error ())).1.failureCount = 1) := by
  refine ⟨fun hs hna hmax => ?_, fun hs hf hw => ?_, fun hs hf hw => ?_⟩
  · simp [checkState, toHalfOpen, hs, hna, maxSafeInteger]
    omega
  · simp [checkState, hs, hf, hw, resetState, maxSafeInteger]
  · have hc : checkState opts s now = (resetState, []) := by
      simp [checkState, hs, hf, hw, resetState, maxSafeInteger]
    simp only [execute, hc]
    simp only [onFailure, resetState]
    split_ifs <;> simp_all [toOpen]

/-- The README's example configuration, resolved: threshold 1/2, window
10000ms, reset timeout 30000ms, defaults elsewhere. -/
def stdOptions : CircuitBreakerOptions :=
  { failureThreshold := mkRat 1 2, timeWindow := 10000,
    resetTimeout := 30000, minAttempts := 5, minFailures := 3,
    minEvaluationTime := 0, maxFailureCount := maxSafeInteger }

/-- An OPEN breaker whose cooldown ends at `t = 30102`. -/
def openDueState : CircuitBreakerState :=
  { state := CircuitState.OPEN, failureCount := 3, successCount := 2,
    firstFailureTime := 100, lastFailureTime := 102, nextAttempt := 30102 }

/-- A CLOSED breaker with an open window started at `t = 100`. -/
def closedWindowState : CircuitBreakerState :=
  { state := CircuitState.CLOSED, failureCount := 4, successCount := 0,
    firstFailureTime := 100, lastFailureTime := 103, nextAttempt := 0 }

theorem checkState_reconciliation_witness :
    CircuitState.OPEN = openDueState.state ∧
    (30200 : ℤ) ≥ openDueState.nextAttempt ∧
    0 < stdOptions.maxFailureCount ∧
    checkState stdOptions openDueState 30200 =
      ({ openDueState with state := CircuitState.HALF_OPEN,
                            failureCount := 0, successCount := 0 },
       [CBEvent.halfOpen]) ∧
    checkState stdOptions closedWindowState 20101 = (resetState, []) ∧
    (execute (ε := Unit) (α := Unit) stdOptions closedWindowState
      20101 20101 20101 (Except.error ())).1.failureCount = 1 :=
  ⟨by decide, by decide, by decide,
   (checkState_reconciliation stdOptions openDueState 30200).1
     (by decide) (by decide) (by decide),
   (checkState_reconciliation stdOptions closedWindowState 20101).2.1
     (by decide) (by decide) (by decide),
   (checkState_reconciliation stdOptions closedWindowState 20101).2.2
     (by decide) (by decide) (by decide)⟩

/-- C5: when the gate lets the call through and the wrapped operation
fails with error `e`, `execute` records the failure (the final state is
`onFailure` of the reconciled state) and re-raises exactly `e`, wrapped
in no breaker error and with no change of identity. -/
theorem op_error_propagates {ε α : Type} (opts : CircuitBreakerOptions)
    (s : CircuitBreakerState) (tCheck tGate tOutcome : ℤ) (e : ε)
    (hgate : ¬((checkState opts s tCheck).1.state = CircuitState.OPEN ∧
        tGate < (checkState opts s tCheck).1.nextAttempt)) :
    execute opts s tCheck tGate tOutcome (Except.error e : Except ε α) =
      ((onFailure opts (checkState opts s tCheck).1 tOutcome).1,
       (checkState opts s tCheck).2 ++
         (onFailure opts (checkState opts s tCheck).1 tOutcome).2,
       Except.error (BreakerError.opError e)) := by
  simp [execute, hgate]

theorem op_error_propagates_witness :
    ¬((checkState stdOptions resetState 100).1.state = CircuitState.OPEN ∧
        (100 : ℤ) < (checkState stdOptions resetState 100).1.nextAttempt) ∧
    execute stdOptions resetState 100 100 100
        (Except.error "boom" : Except String Nat) =
      ((onFailure stdOptions (checkState stdOptions resetState 100).1 100).1,
       (checkState stdOptions resetState 100).2 ++
         (onFailure stdOptions (checkState stdOptions resetState 100).1 100).2,
       Except.error (BreakerError.opError "boom")) :=
  ⟨by decide,
   op_error_propagates stdOptions resetState 100 100 100 "boom" (by decide)⟩

/-- C6 (amended): when `failureCount` has reached `maxFailureCount` at the
start of an `execute` call, reconciliation forces a full reset to
CLOSED/zero in every phase and window state — except when the breaker is
OPEN with its cooldown elapsed: then the OPEN→HALF_OPEN branch runs
first, zeroes both counters, and the safety valve no longer fires, so
the call ends HALF_OPEN instead. -/
theorem max_failure_reset (opts : CircuitBreakerOptions)
    (s : CircuitBreakerState) (now : ℤ) :
    (s.failureCount ≥ opts.maxFailureCount →
      ¬(s.state = CircuitState.OPEN ∧ now ≥ s.nextAttempt) →
      (checkState opts s now).1 = resetState) ∧
    (s.failureCount ≥ opts.maxFailureCount →
      s.state = CircuitState.OPEN → now ≥ s.nextAttempt →
      0 < opts.maxFailureCount →
      (checkState opts s now).1 =
        { s with state := CircuitState.HALF_OPEN, failureCount := 0,
                 successCount := 0 }) := by
  constructor
  · intro hfc hnot
    simp only [checkState, if_neg hnot]
    split_ifs <;> simp_all [resetState, toHalfOpen]
  · intro hfc hs hna hmax
    have hms : 0 < maxSafeInteger := by decide
    have hcond : s.state = CircuitState.OPEN ∧ now ≥ s.nextAttempt := ⟨hs, hna⟩
    simp only [checkState, toHalfOpen, if_pos hcond]
    split_ifs with h
    · exfalso
      rcases h with h | h <;> simp at h <;> omega
    · rfl

theorem max_failure_reset_counterexample :
    ({ state := CircuitState.OPEN, failureCount := 2, successCount := 0,
       firstFailureTime := 50, lastFailureTime := 60,
       nextAttempt := 100 } : CircuitBreakerState).failureCount ≥
      ({ stdOptions with maxFailureCount := 1 }).maxFailureCount ∧
    (checkState { stdOptions with maxFailureCount := 1 }
      { state := CircuitState.OPEN, failureCount := 2, successCount := 0,
        firstFailureTime := 50, lastFailureTime := 60,
        nextAttempt := 100 } 100).1.state = CircuitState.HALF_OPEN ∧
    (checkState { stdOptions with maxFailureCount := 1 }
      { state := CircuitState.OPEN, failureCount := 2, successCount := 0,
        firstFailureTime := 50, lastFailureTime := 60,
        nextAttempt := 100 } 100).1 ≠ resetState := by decide

theorem max_failure_reset_witness :
    ({ state := CircuitState.OPEN, failureCount := 2, successCount := 0,
       firstFailureTime := 50, lastFailureTime := 60,
       nextAttempt := 100 } : CircuitBreakerState).failureCount ≥
      ({ stdOptions with maxFailureCount := 1 }).maxFailureCount ∧
    ¬(({ state := CircuitState.OPEN, failureCount := 2, successCount := 0,
         firstFailureTime := 50, lastFailureTime := 60,
         nextAttempt := 100 } : CircuitBreakerState).state
          = CircuitState.OPEN ∧
      (50 : ℤ) ≥
        ({ state := CircuitState.OPEN, failureCount := 2, successCount := 0,
           firstFailureTime := 50, lastFailureTime := 60,
           nextAttempt := 100 } : CircuitBreakerState).nextAttempt) ∧
    (checkState { stdOptions with maxFailureCount := 1 }
      { state := CircuitState.OPEN, failureCount := 2, successCount := 0,
        firstFailureTime := 50, lastFailureTime := 60,
        nextAttempt := 100 } 50).1 = resetState :=
  ⟨by decide, by decide,
   (max_failure_reset { stdOptions with maxFailureCount := 1 }
      { state := CircuitState.OPEN, failureCount := 2, successCount := 0,
        firstFailureTime := 50, lastFailureTime := 60,
        nextAttempt := 100 } 50).1 (by decide) (by decide)⟩

/-- `checkState` emits either nothing or a single `halfOpen`. -/
theorem checkState_events (opts : CircuitBreakerOptions)
    (s : CircuitBreakerState) (now : ℤ) :
    (checkState opts s now).2 = [] ∨
    (checkState opts s now).2 = [CBEvent.halfOpen] := by
  simp only [checkState]
  split_ifs <;> simp [toHalfOpen]

/-- `onSuccess` emits `success` with the resulting success count, after a
`closeCircuit` when the trial closed the circuit. -/
theorem onSuccess_events (s : CircuitBreakerState) :
    (onSuccess s).2 = [CBEvent.success (onSuccess s).1.successCount] ∨
    (onSuccess s).2 = [CBEvent.closeCircuit,
      CBEvent.success (onSuccess s).1.successCount] := by
  simp only [onSuccess]
  split_ifs <;> simp [toClose, resetState]

/-- `onFailure` emits `failure` with the resulting failure count, after an
`openCircuit` carrying the resulting `nextAttempt` when it opened the
circuit. -/
theorem onFailure_events (opts : CircuitBreakerOptions)
    (s : CircuitBreakerState) (now : ℤ) :
    (onFailure opts s now).2 =
      [CBEvent.failure (onFailure opts s now).1.failureCount] ∨
    (onFailure opts s now).2 =
      [CBEvent.openCircuit (some (onFailure opts s now).1.nextAttempt),
       CBEvent.failure (onFailure opts s now).1.failureCount] := by
  simp only [onFailure]
  split_ifs <;> simp [toOpen]

/-- C9 (amended): in every `execute` call, a `success` notification
carries the breaker's resulting success count, a `failure` notification
carries the resulting failure count, and an `openCircuit` notification
carries the resulting `nextAttempt` timestamp when it accompanies a
transition to OPEN — but the `openCircuit` emitted on the short-circuit
rejection path carries no payload. `closeCircuit` and `halfOpen` carry
none by construction. -/
theorem event_payloads {ε α : Type} (opts : CircuitBreakerOptions)
    (s : CircuitBreakerState) (tCheck tGate tOutcome : ℤ)
    (oc : Except ε α) :
    (∀ n, CBEvent.success n ∈ (execute opts s tCheck tGate tOutcome oc).2.1 →
      n = (execute opts s tCheck tGate tOutcome oc).1.successCount) ∧
    (∀ n, CBEvent.failure n ∈ (execute opts s tCheck tGate tOutcome oc).2.1 →
      n = (execute opts s tCheck tGate tOutcome oc).1.failureCount) ∧
    (∀ p, CBEvent.openCircuit p ∈
        (execute opts s tCheck tGate tOutcome oc).2.1 →
      ((execute opts s tCheck tGate tOutcome oc).2.2 =
          Except.error (BreakerError.circuitOpen "Circuit is OPEN") →
        p = none) ∧
      ((execute opts s tCheck tGate tOutcome oc).2.2 ≠
          Except.error (BreakerError.circuitOpen "Circuit is OPEN") →
        p = some (execute opts s tCheck tGate tOutcome oc).1.nextAttempt)) := by
  have hce := checkState_events opts s tCheck
  rcases oc with e | v
  · simp only [execute]
    split_ifs with hg
    · rcases hce with hc | hc <;> simp_all [List.mem_append]
    · have hfe := onFailure_events opts (checkState opts s tCheck).1 tOutcome
      rcases hce with hc | hc <;> rcases hfe with h2 | h2 <;>
        simp_all [List.mem_append]
  · simp only [execute]
    split_ifs with hg
    · rcases hce with hc | hc <;> simp_all [List.mem_append]
    · have hse := onSuccess_events (checkState opts s tCheck).1
      rcases hce with hc | hc <;> rcases hse with h2 | h2 <;>
        simp_all [List.mem_append]

theorem event_payloads_counterexample :
    (execute (ε := Unit) (α := Unit) stdOptions openDueState 200 200 200
      (Except.ok ())).2.1 = [CBEvent.openCircuit none] ∧
    (execute (ε := Unit) (α := Unit) stdOptions openDueState 200 200 200
      (Except.ok ())).1.nextAttempt = 30102 := by decide

theorem event_payloads_witness :
    CBEvent.failure 5 ∈ (execute (ε := Unit) (α := Unit) stdOptions
      closedWindowState 104 104 104 (Except.error ())).2.1 ∧
    (5 : ℕ) = (execute (ε := Unit) (α := Unit) stdOptions
      closedWindowState 104 104 104 (Except.error ())).1.failureCount :=
  ⟨by decide,
   (event_payloads stdOptions closedWindowState 104 104 104
      (Except.error () : Except Unit Unit)).2.1 5 (by decide)⟩

/-- C10 (amended): a failure recorded exactly at the window boundary
(`now = firstFailureTime + timeWindow`, phase CLOSED, window open) hits
neither the window-reset branch (which needs strict `>`) nor the
open-threshold condition (which needs strict `<`), so — provided the
`maxFailureCount` / `MAX_SAFE_INTEGER` safety valve does not fire —
reconciliation leaves the state untouched, the failure increments
`failureCount` inside the stale window, and the phase stays CLOSED. -/
theorem window_boundary_failure (opts : CircuitBreakerOptions)
    (s : CircuitBreakerState)
    (hs : s.state = CircuitState.CLOSED)
    (hfft : s.firstFailureTime ≠ 0)
    (hfc : s.failureCount < opts.maxFailureCount)
    (hsc : s.successCount < maxSafeInteger) :
    checkState opts s (s.firstFailureTime + opts.timeWindow) = (s, []) ∧
    (execute (ε := Unit) (α := Unit) opts s
        (s.firstFailureTime + opts.timeWindow)
        (s.firstFailureTime + opts.timeWindow)
        (s.firstFailureTime + opts.timeWindow)
        (Except.error ())).1.state = CircuitState.CLOSED ∧
    (execute (ε := Unit) (α := Unit) opts s
        (s.firstFailureTime + opts.timeWindow)
        (s.firstFailureTime + opts.timeWindow)
        (s.firstFailureTime + opts.timeWindow)
        (Except.error ())).1.failureCount = s.failureCount + 1 ∧
    (execute (ε := Unit) (α := Unit) opts s
        (s.firstFailureTime + opts.timeWindow)
        (s.firstFailureTime + opts.timeWindow)
        (s.firstFailureTime + opts.timeWindow)
        (Except.error ())).1.firstFailureTime = s.firstFailureTime := by
  have hA : ¬(s.state = CircuitState.OPEN ∧
      s.firstFailureTime + opts.timeWindow ≥ s.nextAttempt) := by
    rintro ⟨h, -⟩
    rw [hs] at h
    exact absurd h (by decide)
  have hB : ¬(s.state = CircuitState.CLOSED ∧ s.firstFailureTime ≠ 0 ∧
      s.firstFailureTime + opts.timeWindow - s.firstFailureTime >
        opts.timeWindow) := by
    rintro ⟨-, -, h⟩
    omega
  have hc : checkState opts s (s.firstFailureTime + opts.timeWindow)
      = (s, []) := by
    simp only [checkState, if_neg hA, if_neg hB]
    have hv : ¬(s.successCount ≥ maxSafeInteger ∨
        s.failureCount ≥ opts.maxFailureCount) := by omega
    simp [hv]
  refine ⟨hc, ?_⟩
  simp only [execute, hc]
  have hg : ¬((s, ([] : List CBEvent)).1.state = CircuitState.OPEN ∧
      s.firstFailureTime + opts.timeWindow <
        (s, ([] : List CBEvent)).1.nextAttempt) := by
    rintro ⟨h, -⟩
    rw [hs] at h
    exact absurd h (by decide)
  rw [if_neg hg]
  have hT : ¬ isThresholdExceeded opts
      { state := CircuitState.CLOSED, failureCount := s.failureCount + 1,
        successCount := s.successCount,
        firstFailureTime := s.firstFailureTime,
        lastFailureTime := s.firstFailureTime + opts.timeWindow,
        nextAttempt := s.nextAttempt }
      (s.firstFailureTime + opts.timeWindow) := by
    intro h
    exact absurd h.2.2.2.2 (by simp)
  simp [onFailure, hs, hfft, hT]

theorem window_boundary_failure_counterexample :
    (10100 : ℤ) =
      ({ state := CircuitState.CLOSED, failureCount := 3, successCount := 0,
         firstFailureTime := 100, lastFailureTime := 102,
         nextAttempt := 0 } : CircuitBreakerState).firstFailureTime +
        ({ stdOptions with maxFailureCount := 3 }).timeWindow ∧
    (execute (ε := Unit) (α := Unit) { stdOptions with maxFailureCount := 3 }
      { state := CircuitState.CLOSED, failureCount := 3, successCount := 0,
        firstFailureTime := 100, lastFailureTime := 102, nextAttempt := 0 }
      10100 10100 10100 (Except.error ())).1.failureCount = 1 ∧
    ({ state := CircuitState.CLOSED, failureCount := 3, successCount := 0,
       firstFailureTime := 100, lastFailureTime := 102,
       nextAttempt := 0 } : CircuitBreakerState).failureCount + 1 = 4 ∧
    (execute (ε := Unit) (α := Unit) { stdOptions with maxFailureCount := 3 }
      { state := CircuitState.CLOSED, failureCount := 3, successCount := 0,
        firstFailureTime := 100, lastFailureTime := 102, nextAttempt := 0 }
      10100 10100 10100 (Except.error ())).1.firstFailureTime = 10100 := by
  decide

theorem window_boundary_failure_witness :
    closedWindowState.state = CircuitState.CLOSED ∧
    closedWindowState.firstFailureTime ≠ 0 ∧
    closedWindowState.failureCount < stdOptions.maxFailureCount ∧
    closedWindowState.successCount < maxSafeInteger ∧
    checkState stdOptions closedWindowState
      (closedWindowState.firstFailureTime + stdOptions.timeWindow)
      = (closedWindowState, []) ∧
    (execute (ε := Unit) (α := Unit) stdOptions closedWindowState
      (closedWindowState.firstFailureTime + stdOptions.timeWindow)
      (closedWindowState.firstFailureTime + stdOptions.timeWindow)
      (closedWindowState.firstFailureTime + stdOptions.timeWindow)
      (Except.error ())).1.failureCount = closedWindowState.failureCount + 1 :=
  ⟨by decide, by decide, by decide, by decide,
   (window_boundary_failure stdOptions closedWindowState
      (by decide) (by decide) (by decide) (by decide)).1,
   (window_boundary_failure stdOptions closedWindowState
      (by decide) (by decide) (by decide) (by decide)).2.2.1⟩

/-- The configuration of the spec's worked example: `minFailures = 3`,
`minAttempts = 5`, `failureThreshold = 0.5`, `timeWindow = 10000`; the
remaining fields are irrelevant to outcome recording. -/
def exampleOptions (rt : ℤ) (mfc : ℕ) : CircuitBreakerOptions :=
  { failureThreshold := mkRat 1 2, timeWindow := 10000, resetTimeout := rt,
    minAttempts := 5, minFailures := 3, minEvaluationTime := 0,
    maxFailureCount := mfc }

theorem runSeq_cons (opts : CircuitBreakerOptions) (s : CircuitBreakerState)
    (e : Outcome × ℤ) (l : List (Outcome × ℤ)) :
    runSeq opts s (e :: l) = runSeq opts (record opts s e) l := rfl

theorem runSeq_append (opts : CircuitBreakerOptions) (s : CircuitBreakerState)
    (l₁ l₂ : List (Outcome × ℤ)) :
    runSeq opts s (l₁ ++ l₂) = runSeq opts (runSeq opts s l₁) l₂ :=
  List.foldl_append _ _ _ _

/-- A success recorded while CLOSED only increments `successCount`. -/
theorem onSuccess_closed (s : CircuitBreakerState)
    (hs : s.state = CircuitState.CLOSED) :
    (onSuccess s).1 = { s with successCount := s.successCount + 1 } := by
  simp [onSuccess, hs]

/-- A failure recorded while CLOSED with fewer than `minFailures` failures
accumulated cannot open the circuit: it increments `failureCount`,
stamps `lastFailureTime` and starts the window when none is open. -/
theorem onFailure_below_min (opts : CircuitBreakerOptions)
    (s : CircuitBreakerState) (now : ℤ)
    (hs : s.state = CircuitState.CLOSED)
    (hmin : s.failureCount + 1 < opts.minFailures) :
    (onFailure opts s now).1 =
      { s with failureCount := s.failureCount + 1,
               firstFailureTime := if s.firstFailureTime = 0 then now
                 else s.firstFailureTime,
               lastFailureTime := now } := by
  by_cases h0 : s.firstFailureTime = 0
  · have hT : ¬ isThresholdExceeded opts
        { state := CircuitState.CLOSED, failureCount := s.failureCount + 1,
          successCount := s.successCount, firstFailureTime := now,
          lastFailureTime := now, nextAttempt := s.nextAttempt } now := by
      intro hx
      obtain ⟨h1, -⟩ := hx
      simp at h1
      omega
    simp [onFailure, hs, h0, hT]
  · have hT : ¬ isThresholdExceeded opts
        { state := CircuitState.CLOSED, failureCount := s.failureCount + 1,
          successCount := s.successCount,
          firstFailureTime := s.firstFailureTime,
          lastFailureTime := now, nextAttempt := s.nextAttempt } now := by
      intro hx
      obtain ⟨h1, -⟩ := hx
      simp at h1
      omega
    simp [onFailure, hs, h0, hT]

/-- A failure recorded while CLOSED with an open window opens the circuit
when the five threshold conditions hold after the increment. -/
theorem onFailure_opens (opts : CircuitBreakerOptions)
    (s : CircuitBreakerState) (now : ℤ)
    (hs : s.state = CircuitState.CLOSED)
    (hfft : s.firstFailureTime ≠ 0)
    (h1 : s.failureCount + 1 ≥ opts.minFailures)
    (h2 : failureRate (s.failureCount + 1) (s.failureCount + 1 + s.successCount)
      ≥ opts.failureThreshold)
    (h3 : s.failureCount + 1 + s.successCount ≥ opts.minAttempts)
    (h4 : now - s.firstFailureTime ≥ opts.minEvaluationTime)
    (h5 : now < s.firstFailureTime + opts.timeWindow) :
    (onFailure opts s now).1.state = CircuitState.OPEN ∧
    (onFailure opts s now).1.nextAttempt = now + opts.resetTimeout := by
  have hT : isThresholdExceeded opts
      { state := CircuitState.CLOSED, failureCount := s.failureCount + 1,
        successCount := s.successCount,
        firstFailureTime := s.firstFailureTime,
        lastFailureTime := now, nextAttempt := s.nextAttempt } now := by
    refine ⟨by simpa using h1, by simpa using h2, by simpa using h3,
      by simpa using h4, by simpa using h5⟩
  constructor <;> simp [onFailure, hs, hfft, hT, toOpen]

/-- While CLOSED and with fewer than `minFailures` failures in sight, a
run of recorded outcomes keeps the breaker CLOSED, tallies the two
counters, and preserves the window start (when one is open, or when no
failure is recorded). -/
theorem runSeq_closed_track (opts : CircuitBreakerOptions)
    (l : List (Outcome × ℤ)) :
    ∀ s : CircuitBreakerState, s.state = CircuitState.CLOSED →
      s.failureCount + countFailures l < opts.minFailures →
      (runSeq opts s l).state = CircuitState.CLOSED ∧
      (runSeq opts s l).failureCount = s.failureCount + countFailures l ∧
      (runSeq opts s l).successCount = s.successCount + countSuccesses l ∧
      ((s.firstFailureTime ≠ 0 ∨ countFailures l = 0) →
        (runSeq opts s l).firstFailureTime = s.firstFailureTime) := by
  induction l with
  | nil =>
    intro s hs hfew
    exact ⟨hs, by simp [runSeq, countFailures],
      by simp [runSeq, countSuccesses], fun _ => rfl⟩
  | cons e tl ih =>
    intro s hs hfew
    obtain ⟨o, u⟩ := e
    cases o with
    | success =>
      have hcF : countFailures ((Outcome.success, u) :: tl)
          = countFailures tl := by simp [countFailures]
      have hcS : countSuccesses ((Outcome.success, u) :: tl)
          = countSuccesses tl + 1 := by simp [countSuccesses]
      rw [runSeq_cons]
      have hrec : record opts s (Outcome.success, u)
          = { s with successCount := s.successCount + 1 } := by
        simp [record, onSuccess_closed s hs]
      rw [hrec]
      rw [hcF] at hfew
      obtain ⟨h1, h2, h3, h4⟩ :=
        ih { s with successCount := s.successCount + 1 } (by simpa using hs)
          (by simpa using hfew)
      refine ⟨h1, ?_, ?_, ?_⟩
      · rw [h2, hcF]
      · rw [h3, hcS]
        simp
        omega
      · intro hd
        refine (h4 ?_).trans (by simp)
        rcases hd with hd | hd
        · exact Or.inl (by simpa using hd)
        · exact Or.inr (by rwa [hcF] at hd)
    | failure =>
      have hcF : countFailures ((Outcome.failure, u) :: tl)
          = countFailures tl + 1 := by simp [countFailures]
      have hcS : countSuccesses ((Outcome.failure, u) :: tl)
          = countSuccesses tl := by simp [countSuccesses]
      rw [hcF] at hfew
      have hmin : s.failureCount + 1 < opts.minFailures := by omega
      rw [runSeq_cons]
      have hrec : record opts s (Outcome.failure, u)
          = { s with failureCount := s.failureCount + 1,
                     firstFailureTime := if s.firstFailureTime = 0 then u
                       else s.firstFailureTime,
                     lastFailureTime := u } := by
        simp [record, onFailure_below_min opts s u hs hmin]
      rw [hrec]
      obtain ⟨h1, h2, h3, h4⟩ :=
        ih { s with failureCount := s.failureCount + 1,
                    firstFailureTime := if s.firstFailureTime = 0 then u
                      else s.firstFailureTime,
                    lastFailureTime := u } (by simpa using hs)
          (by simp; omega)
      refine ⟨h1, ?_, ?_, ?_⟩
      · rw [h2, hcF]
        simp
        omega
      · rw [h3, hcS]
      · intro hd
        rcases hd with hd | hd
        · refine (h4 (Or.inl (by simpa [hd] using hd))).trans ?_
          simp [hd]
        · rw [hcF] at hd
          omega

/-- C7 (amended): with `minFailures=3, minAttempts=5,
failureThreshold=0.5, timeWindow=10000` and a fresh CLOSED breaker:
recording 3 failures and 2 successes within the window opens the circuit
on the third failure provided that failure is the last of the five
recordings (so that five attempts have accumulated when it lands);
recording 2 failures and 3 successes, in any order, leaves the phase
CLOSED. -/
theorem example_config_sequences (rt : ℤ) (mfc : ℕ) :
    (∀ (a b : List (Outcome × ℤ)) (t₁ t : ℤ),
      countFailures a = 0 → countFailures b = 1 →
      countSuccesses a + countSuccesses b = 2 →
      0 < t₁ → t₁ ≤ t → t < t₁ + 10000 →
      (runSeq (exampleOptions rt mfc) resetState
        (a ++ (Outcome.failure, t₁) :: (b ++ [(Outcome.failure, t)]))).state
        = CircuitState.OPEN) ∧
    (∀ l : List (Outcome × ℤ), countFailures l = 2 → countSuccesses l = 3 →
      (runSeq (exampleOptions rt mfc) resetState l).state
        = CircuitState.CLOSED) := by
  constructor
  · intro a b t₁ t hFa hFb hS ht₁ hle hw
    rw [runSeq_append, runSeq_cons, runSeq_append]
    obtain ⟨ha1, ha2, ha3, ha4⟩ :=
      runSeq_closed_track (exampleOptions rt mfc) a resetState rfl
        (by simp [resetState, exampleOptions, hFa])
    set s₁ := runSeq (exampleOptions rt mfc) resetState a with hs₁
    have hafc : s₁.failureCount = 0 := by
      simpa [resetState, hFa] using ha2
    have hafft : s₁.firstFailureTime = 0 := by
      simpa [resetState] using ha4 (Or.inr hFa)
    have hmin1 : s₁.failureCount + 1 < (exampleOptions rt mfc).minFailures := by
      simp [exampleOptions, hafc]
    have hrec1 : record (exampleOptions rt mfc) s₁ (Outcome.failure, t₁)
        = { s₁ with failureCount := s₁.failureCount + 1,
                    firstFailureTime := t₁, lastFailureTime := t₁ } := by
      rw [record, onFailure_below_min _ _ _ ha1 hmin1]
      simp [hafft]
    rw [hrec1]
    obtain ⟨hb1, hb2, hb3, hb4⟩ :=
      runSeq_closed_track (exampleOptions rt mfc) b
        { s₁ with failureCount := s₁.failureCount + 1,
                  firstFailureTime := t₁, lastFailureTime := t₁ }
        (by simpa using ha1)
        (by simp [exampleOptions, hafc, hFb])
    set s₃ := runSeq (exampleOptions rt mfc)
        { s₁ with failureCount := s₁.failureCount + 1,
                  firstFailureTime := t₁, lastFailureTime := t₁ } b with hs₃
    have hfc3 : s₃.failureCount = 2 := by
      simpa [hafc, hFb] using hb2
    have hsc3 : s₃.successCount = 2 := by
      have := hb3
      simp [resetState] at ha3
      simp [ha3] at this
      omega
    have hfft3 : s₃.firstFailureTime = t₁ := by
      simpa using hb4 (Or.inl (by simp; omega))
    have hlast : runSeq (exampleOptions rt mfc) s₃ [(Outcome.failure, t)]
        = record (exampleOptions rt mfc) s₃ (Outcome.failure, t) := rfl
    rw [hlast, record]
    refine (onFailure_opens (exampleOptions rt mfc) s₃ t hb1
      (by rw [hfft3]; omega) ?_ ?_ ?_ ?_ ?_).1
    · rw [hfc3]
      simp [exampleOptions]
    · rw [hfc3, hsc3]
      show (mkRat 1 2 : ℚ) ≤ failureRate 3 5
      decide
    · rw [hfc3, hsc3]
      simp [exampleOptions]
    · rw [hfft3]
      simp [exampleOptions]
      omega
    · rw [hfft3]
      show t < t₁ + (10000 : ℤ)
      omega
  · intro l hF hS
    exact (runSeq_closed_track (exampleOptions rt mfc) l resetState rfl
      (by simp [resetState, exampleOptions, hF])).1

theorem example_config_sequences_counterexample :
    (runSeq (exampleOptions 30000 maxSafeInteger) resetState
      [(Outcome.failure, 100), (Outcome.failure, 101),
       (Outcome.failure, 102)]).state = CircuitState.CLOSED ∧
    (runSeq (exampleOptions 30000 maxSafeInteger) resetState
      [(Outcome.failure, 100), (Outcome.failure, 101),
       (Outcome.failure, 102), (Outcome.success, 103),
       (Outcome.success, 104)]).state = CircuitState.CLOSED := by
  decide

theorem example_config_sequences_witness :
    countFailures [(Outcome.success, 100)] = 0 ∧
    countFailures [(Outcome.success, 102), (Outcome.failure, 103)] = 1 ∧
    countSuccesses [(Outcome.success, 100)] +
      countSuccesses [(Outcome.success, 102), (Outcome.failure, 103)] = 2 ∧
    (runSeq (exampleOptions 30000 maxSafeInteger) resetState
      ([(Outcome.success, 100)] ++ (Outcome.failure, 101) ::
        ([(Outcome.success, 102), (Outcome.failure, 103)] ++
          [(Outcome.failure, 104)]))).state = CircuitState.OPEN ∧
    countFailures [(Outcome.failure, 100), (Outcome.success, 101),
      (Outcome.failure, 102), (Outcome.success, 103),
      (Outcome.success, 104)] = 2 ∧
    (runSeq (exampleOptions 30000 maxSafeInteger) resetState
      [(Outcome.failure, 100), (Outcome.success, 101),
       (Outcome.failure, 102), (Outcome.success, 103),
       (Outcome.success, 104)]).state = CircuitState.CLOSED :=
  ⟨by decide, by decide, by decide,
   (example_config_sequences 30000 maxSafeInteger).1
     [(Outcome.success, 100)]
     [(Outcome.success, 102), (Outcome.failure, 103)]
     101 104 (by decide) (by decide) (by decide) (by decide) (by decide)
     (by decide),
   by decide,
   (example_config_sequences 30000 maxSafeInteger).2
     [(Outcome.failure, 100), (Outcome.success, 101),
      (Outcome.failure, 102), (Outcome.success, 103),
      (Outcome.success, 104)] (by decide) (by decide)⟩
